import Mathlib

/-!
Verification of the wocket WebSocket server core (src/src/main.rs).

Bytes are modelled as natural numbers (inputs of interest are < 256).
Machine-integer bit operations are translated to arithmetic on Nat:
`x >> 7` becomes `x / 128`, `x & 0xF` becomes `x % 16`, `x & 0x7F`
becomes `x % 128`, `(hi as u16) << 8 | lo` becomes `hi * 256 + lo`
(for byte values these agree with the Rust operations), and `as u8`
casts become `% 256`.  XOR stays `^^^`.

Rust's `Result` is modelled by `ParseResult`, which has a third
constructor `panic` for out-of-bounds slice/index operations, which
abort the process in Rust instead of returning a value.
-/

namespace Wocket

/-- Outcome of `parse_ws_frame`: a successful payload, a returned error
string, or a Rust panic (out-of-bounds slicing / indexing). -/
inductive ParseResult where
  | ok : List Nat → ParseResult
  | err : String → ParseResult
  | panic : ParseResult
deriving DecidableEq, Repr

/-- Error string from src/src/main.rs lines 115 and 145. -/
def errTruncated : String := "Reached end of frame while parsing"

/-- Error string from src/src/main.rs line 120. -/
def errFin : String := "FIN bit not 1, payload is fragmented which we don't support"

/-- Error string from src/src/main.rs line 125. -/
def errOpcode : String := "Opcode field is not 0x2 which means the message is not binary"

/-- Error string from src/src/main.rs line 130. -/
def errMask : String := "Mask bit not 1, should never happen"

/-- Error string from src/src/main.rs line 137. -/
def errTooLarge : String := "Message longer than 65535 bytes, not supported"

/-- Embeds src/src/main.rs lines 151-159: slice the 4-byte masking key at
`mask_idx` (a short buffer makes `&frame_buf[mask_idx..mask_idx + 4]`
panic), then unmask `payload_len` bytes of the remaining payload
(`payload[i]` panics when the payload is shorter than `payload_len`).
`tail` is the buffer from index `mask_idx` on. -/
def read_masked (tail : List Nat) (payload_len : Nat) : ParseResult :=
  match tail with
  | k0 :: k1 :: k2 :: k3 :: payload =>
    if payload.length < payload_len then ParseResult.panic
    else ParseResult.ok
      ((List.range payload_len).map
        (fun i => payload.getD i 0 ^^^ (List.getD [k0, k1, k2, k3] (i % 4) 0)))
  | _ => ParseResult.panic

/-- Embeds `parse_ws_frame` (src/src/main.rs lines 113-160).  The match on
`b0 :: b1 :: rest` is the `frame_buf.len() < 2` check; `b0 / 128` is
`frame_buf[0] >> 7`; `b0 % 16` is `frame_buf[0] & 0xF`; `b1 / 128` is
`frame_buf[1] >> 7`; `b1 % 128` is `frame_buf[1] & 0b0111_1111`; in the
126 branch the inner match is the `frame_buf.len() < 4` check and
`e2 * 256 + e3` is `((frame_buf[2] as u16) << 8) | (frame_buf[3] as u16)`. -/
def parse_ws_frame (frame_buf : List Nat) : ParseResult :=
  match frame_buf with
  | b0 :: b1 :: rest =>
    if b0 / 128 ≠ 1 then ParseResult.err errFin
    else if b0 % 16 ≠ 2 then ParseResult.err errOpcode
    else if b1 / 128 ≠ 1 then ParseResult.err errMask
    else if b1 % 128 = 127 then ParseResult.err errTooLarge
    else if b1 % 128 = 126 then
      match rest with
      | e2 :: e3 :: rest2 => read_masked rest2 (e2 * 256 + e3)
      | _ => ParseResult.err errTruncated
    else read_masked rest (b1 % 128)
  | _ => ParseResult.err errTruncated

/-- Embeds `write_ws_frame` (src/src/main.rs lines 162-180).
`0x82 = 0b1000_0010`; the `as u8` casts become `% 256` and
`message.len() >> 8` becomes `/ 256`. -/
def write_ws_frame (message : List Nat) : List Nat :=
  if message.length ≤ 125 then
    130 :: (message.length % 256) :: message
  else
    130 :: 126 :: (message.length / 256 % 256) :: (message.length % 256) :: message

/-- The masked client-style frame around payload `P` with 4-byte key `key`,
as described by the round-trip property: header byte `0x82`, MASK bit set
on the length byte, inline length when `len ≤ 125` and otherwise `126`
plus the big-endian 16-bit length, then the key, then the XOR-masked
payload. -/
def mask_payload (key P : List Nat) : List Nat :=
  (List.range P.length).map (fun i => P.getD i 0 ^^^ key.getD (i % 4) 0)

/-- Header of the masked client-style frame (see `mask_client_frame`). -/
def client_header (n : Nat) : List Nat :=
  if n ≤ 125 then [130, 128 + n] else [130, 128 + 126, n / 256, n % 256]

/-- The full masked client-style frame: header, key, masked payload. -/
def mask_client_frame (key P : List Nat) : List Nat :=
  client_header P.length ++ key ++ mask_payload key P

/-- The payload length declared by a frame buffer's header (src/src/main.rs
lines 133-148): the low 7 bits of byte 1, or, when those equal 126, the
big-endian 16-bit value in bytes 2 and 3. -/
def declared_payload_len (frame_buf : List Nat) : Nat :=
  if frame_buf.getD 1 0 % 128 = 126 then
    frame_buf.getD 2 0 * 256 + frame_buf.getD 3 0
  else frame_buf.getD 1 0 % 128

/-- 32-bit left rotation (`u32::rotate_left`), used by the SHA-1 rounds. -/
def rotl32 (n x : Nat) : Nat := ((x <<< n) ||| (x >>> (32 - n))) % 4294967296

/-- The SHA-1 round function f_t (complement is XOR with `0xFFFFFFFF`). -/
def sha1_f (t b c d : Nat) : Nat :=
  if t < 20 then (b &&& c) ||| ((b ^^^ 4294967295) &&& d)
  else if t < 40 then b ^^^ c ^^^ d
  else if t < 60 then (b &&& c) ||| (b &&& d) ||| (c &&& d)
  else b ^^^ c ^^^ d

/-- The SHA-1 round constants K_t. -/
def sha1_k (t : Nat) : Nat :=
  if t < 20 then 1518500249
  else if t < 40 then 1859775393
  else if t < 60 then 2400959708
  else 3395469782

/-- Big-endian 32-bit words from a byte list. -/
def bytesToWords : List Nat → List Nat
  | a :: b :: c :: d :: rest => (((a * 256 + b) * 256 + c) * 256 + d) :: bytesToWords rest
  | _ => []

/-- Extend the 16-word message schedule by the given number of words:
each new word is `rotl1` of the XOR of the words 3, 8, 14 and 16 back. -/
def sha1_extend (ws : List Nat) : Nat → List Nat
  | 0 => ws
  | k + 1 =>
    let l := ws.length
    sha1_extend
      (ws ++ [rotl32 1 (ws.getD (l - 3) 0 ^^^ ws.getD (l - 8) 0 ^^^
        ws.getD (l - 14) 0 ^^^ ws.getD (l - 16) 0)]) k

/-- One SHA-1 round on the five-word working state. -/
def sha1_round : (Nat × Nat × Nat × Nat × Nat) → Nat × Nat → (Nat × Nat × Nat × Nat × Nat)
  | (a, b, c, d, e), (t, w) =>
    ((rotl32 5 a + sha1_f t b c d + e + sha1_k t + w) % 4294967296, a, rotl32 30 b, c, d)

/-- Compress one 64-byte block into the running SHA-1 state. -/
def sha1_compress (h : Nat × Nat × Nat × Nat × Nat) (block : List Nat) :
    Nat × Nat × Nat × Nat × Nat :=
  let ws := sha1_extend (bytesToWords block) 64
  match h, ((List.range 80).zip ws).foldl sha1_round h with
  | (h0, h1, h2, h3, h4), (a, b, c, d, e) =>
    ((h0 + a) % 4294967296, (h1 + b) % 4294967296, (h2 + c) % 4294967296,
     (h3 + d) % 4294967296, (h4 + e) % 4294967296)

/-- SHA-1 padding: `0x80`, zeros up to 56 mod 64, then the 64-bit
big-endian bit length. -/
def sha1_pad (msg : List Nat) : List Nat :=
  let bitLen := msg.length * 8
  msg ++ [128] ++ List.replicate ((119 - msg.length % 64) % 64) 0 ++
    [bitLen / 2 ^ 56 % 256, bitLen / 2 ^ 48 % 256, bitLen / 2 ^ 40 % 256,
     bitLen / 2 ^ 32 % 256, bitLen / 2 ^ 24 % 256, bitLen / 2 ^ 16 % 256,
     bitLen / 2 ^ 8 % 256, bitLen % 256]

/-- Fold `sha1_compress` over the given number of 64-byte blocks. -/
def sha1_loop (st : Nat × Nat × Nat × Nat × Nat) (msg : List Nat) :
    Nat → Nat × Nat × Nat × Nat × Nat
  | 0 => st
  | k + 1 => sha1_loop (sha1_compress st (msg.take 64)) (msg.drop 64) k

/-- Big-endian bytes of a 32-bit word. -/
def word_bytes (w : Nat) : List Nat :=
  [w / 16777216 % 256, w / 65536 % 256, w / 256 % 256, w % 256]

/-- SHA-1 of a byte list (the `Sha1` hasher of src/src/main.rs lines
105-108): 20 digest bytes. -/
def sha1 (msg : List Nat) : List Nat :=
  let padded := sha1_pad msg
  match sha1_loop (1732584193, 4023233417, 2562383102, 271733878, 3285377520)
      padded (padded.length / 64) with
  | (h0, h1, h2, h3, h4) =>
    word_bytes h0 ++ word_bytes h1 ++ word_bytes h2 ++ word_bytes h3 ++ word_bytes h4

/-- The standard Base64 alphabet. -/
def b64_alphabet : List Char :=
  "ABCDEFGHIJKLMNOPQRSTUVWXYZabcdefghijklmnopqrstuvwxyz0123456789+/".data

/-- Character of a 6-bit group. -/
def b64_char (n : Nat) : Char := b64_alphabet.getD n 'A'

/-- Standard Base64 with padding (`BASE64_STANDARD.encode` of
src/src/main.rs line 110). -/
def base64_encode : List Nat → List Char
  | a :: b :: c :: rest =>
    let x := (a * 256 + b) * 256 + c
    b64_char (x / 262144) :: b64_char (x / 4096 % 64) :: b64_char (x / 64 % 64)
      :: b64_char (x % 64) :: base64_encode rest
  | [a, b] =>
    let x := a * 1024 + b * 4
    [b64_char (x / 4096), b64_char (x / 64 % 64), b64_char (x % 64), '=']
  | [a] =>
    let x := a * 16
    [b64_char (x / 64), b64_char (x % 64), '=', '=']
  | [] => []

/-- The fixed protocol magic constant, as ASCII bytes
(src/src/main.rs line 107). -/
def magic_bytes : List Nat := "258EAFA5-E914-47DA-95CA-C5AB0DC85B11".data.map Char.toNat

/-- Embeds `accept_value` (src/src/main.rs lines 104-111): Base64 of the
SHA-1 digest of the key bytes followed by the magic constant. -/
def accept_value (key_value : List Nat) : String :=
  String.mk (base64_encode (sha1 (key_value ++ magic_bytes)))

/-- A parsed HTTP header: name and raw value bytes (the `httparse::Header`
shape used by `handshake_response`). -/
structure HttpHeader where
  name : String
  value : List Nat
deriving DecidableEq, Repr

/-- Embeds `handshake_response` (src/src/main.rs lines 71-102) over the
output of the external HTTP parser: the request method and the parsed
header list.  `find` over the header array becomes `List.find?` with the
exact-match predicate on the name. -/
def handshake_response (method : Option String) (headers : List HttpHeader) :
    String × Bool :=
  let bad_response := "HTTP/1.1 400 Bad Request\r\n\r\n"
  if method ≠ some "GET" then (bad_response, true)
  else
    match headers.find? (fun h => h.name == "Sec-WebSocket-Key") with
    | some header =>
      ("HTTP/1.1 101 Switching Protocols\r\nUpgrade: websocket\r\nConnection: Upgrade\r\nSec-WebSocket-Accept: "
          ++ accept_value header.value ++ "\r\n\r\n", false)
    | none => (bad_response, true)

/-- Claim C2: the claim states that a buffer passing the header checks but
containing fewer than `mask_key_offset + 4 + real_length` bytes makes
`parse_ws_frame` return the Truncated error instead of crashing.  In the
code, slicing the masking key (or indexing the payload) out of bounds
panics: on `[0x82, 0x85]` (valid header, declared length 5, nothing after
byte 1) the function aborts instead of returning an error. -/
theorem parse_panics_on_truncated_body :
    parse_ws_frame [130, 133] = ParseResult.panic := by decide

/-- Claim C8: the claim states that `parse_ws_frame` (among others) never
aborts.  On `[0x82, 0xFE, 0x00, 0x01]` (valid header, extended length 1,
missing masking key and payload) it panics slicing the masking key. -/
theorem parse_not_total :
    parse_ws_frame [130, 254, 0, 1] = ParseResult.panic := by decide

/-- Claim C5: for every buffer of at least 2 bytes whose byte 0 has the top
bit set and low 4 bits equal to 2, if byte 1 has its MASK bit clear then
`parse_ws_frame` returns the MaskRequired error, regardless of declared
length or payload. -/
theorem mask_required (b0 b1 : Nat) (rest : List Nat)
    (hb0 : 128 ≤ b0) (hb0' : b0 < 256) (hop : b0 % 16 = 2) (hb1 : b1 < 128) :
    parse_ws_frame (b0 :: b1 :: rest) = ParseResult.err errMask := by
  have h1 : b0 / 128 = 1 := by omega
  have h2 : b1 / 128 = 0 := by omega
  simp [parse_ws_frame, h1, h2, hop]

/-- Witness for C5 at the concrete frame `[0x82, 0x05]`. -/
theorem mask_required_witness :
    parse_ws_frame [130, 5] = ParseResult.err errMask :=
  mask_required 130 5 [] (by decide) (by decide) (by decide) (by decide)

/-- Claim C7: FIN bit 0 always yields the FragmentationUnsupported error,
and FIN bit 1 with opcode different from 2 always yields the
UnsupportedOpcode error, for every buffer of at least 2 bytes. -/
theorem fin_and_opcode_rejection :
    (∀ (b0 b1 : Nat) (rest : List Nat), b0 < 128 →
      parse_ws_frame (b0 :: b1 :: rest) = ParseResult.err errFin) ∧
    (∀ (b0 b1 : Nat) (rest : List Nat), 128 ≤ b0 → b0 < 256 → b0 % 16 ≠ 2 →
      parse_ws_frame (b0 :: b1 :: rest) = ParseResult.err errOpcode) := by
  constructor
  · intro b0 b1 rest h
    have h1 : b0 / 128 = 0 := by omega
    simp [parse_ws_frame, h1]
  · intro b0 b1 rest h h' hop
    have h1 : b0 / 128 = 1 := by omega
    simp [parse_ws_frame, h1, hop]

/-- Witness for C7: a fragmented binary frame, and whole frames with text
(1), close (8) and ping (9) opcodes. -/
theorem fin_and_opcode_rejection_witness :
    parse_ws_frame [2, 133] = ParseResult.err errFin ∧
    parse_ws_frame [129, 133] = ParseResult.err errOpcode ∧
    parse_ws_frame [136, 133] = ParseResult.err errOpcode ∧
    parse_ws_frame [137, 133] = ParseResult.err errOpcode :=
  ⟨fin_and_opcode_rejection.1 2 133 [] (by decide),
   fin_and_opcode_rejection.2 129 133 [] (by decide) (by decide) (by decide),
   fin_and_opcode_rejection.2 136 133 [] (by decide) (by decide) (by decide),
   fin_and_opcode_rejection.2 137 133 [] (by decide) (by decide) (by decide)⟩

/-- Claim C6: `write_ws_frame` uses the 1-byte inline length form for a
125-byte payload, the 2-byte big-endian extended form for lengths 126
through 65535, and `parse_ws_frame` fails with PayloadTooLarge on every
frame whose 7-bit length field equals 127. -/
theorem length_encoding_boundaries :
    (∀ P : List Nat, P.length = 125 → write_ws_frame P = 130 :: 125 :: P) ∧
    (∀ P : List Nat, 126 ≤ P.length → P.length ≤ 65535 →
      write_ws_frame P = 130 :: 126 :: (P.length / 256) :: (P.length % 256) :: P) ∧
    (∀ (b0 b1 : Nat) (rest : List Nat), 128 ≤ b0 → b0 < 256 → b0 % 16 = 2 →
      128 ≤ b1 → b1 < 256 → b1 % 128 = 127 →
      parse_ws_frame (b0 :: b1 :: rest) = ParseResult.err errTooLarge) := by
  refine ⟨?_, ?_, ?_⟩
  · intro P h
    simp [write_ws_frame, h]
  · intro P h h'
    have hh : ¬ (P.length ≤ 125) := by omega
    have hd : P.length / 256 % 256 = P.length / 256 := by omega
    simp [write_ws_frame, hh, hd]
  · intro b0 b1 rest h h' hop h1 h1' hlen
    have e0 : b0 / 128 = 1 := by omega
    have e1 : b1 / 128 = 1 := by omega
    simp [parse_ws_frame, e0, e1, hop, hlen]

/-- Witness for C6 at lengths 125 and 126 and a frame with length field
127 (`[0x82, 0xFF]`). -/
theorem length_encoding_boundaries_witness :
    write_ws_frame (List.replicate 125 7) = 130 :: 125 :: List.replicate 125 7 ∧
    write_ws_frame (List.replicate 126 7) = 130 :: 126 :: 0 :: 126 :: List.replicate 126 7 ∧
    parse_ws_frame [130, 255] = ParseResult.err errTooLarge :=
  ⟨length_encoding_boundaries.1 (List.replicate 125 7) (by simp),
   by simpa using length_encoding_boundaries.2.1 (List.replicate 126 7) (by simp) (by simp),
   length_encoding_boundaries.2.2 130 255 [] (by decide) (by decide) (by decide)
     (by decide) (by decide) (by decide)⟩

/-- Claim C10: minimal length encoding is not enforced: a frame whose 7-bit
length field is 126 but whose big-endian extended length is at most 125
(including 0) is still accepted, with the masking key read from byte 4 on
and the payload decoded to exactly the extended length. -/
theorem non_minimal_length_accepted
    (b0 e2 e3 k0 k1 k2 k3 : Nat) (rest : List Nat)
    (hb0 : 128 ≤ b0) (hb0' : b0 < 256) (hop : b0 % 16 = 2)
    (_hlen : e2 * 256 + e3 ≤ 125) (hrest : e2 * 256 + e3 ≤ rest.length) :
    parse_ws_frame (b0 :: 254 :: e2 :: e3 :: k0 :: k1 :: k2 :: k3 :: rest)
      = ParseResult.ok ((List.range (e2 * 256 + e3)).map
          (fun i => rest.getD i 0 ^^^ (List.getD [k0, k1, k2, k3] (i % 4) 0))) ∧
    ((List.range (e2 * 256 + e3)).map
          (fun i => rest.getD i 0 ^^^ (List.getD [k0, k1, k2, k3] (i % 4) 0))).length
      = e2 * 256 + e3 := by
  have h1 : b0 / 128 = 1 := by omega
  have hc : ¬ (rest.length < e2 * 256 + e3) := by omega
  constructor
  · simp [parse_ws_frame, read_masked, h1, hop, hc]
  · simp

/-- Witness for C10: length field 126 with extended length 2. -/
theorem non_minimal_length_accepted_witness :
    parse_ws_frame [130, 254, 0, 2, 1, 2, 3, 4, 5, 6]
      = ParseResult.ok ((List.range (0 * 256 + 2)).map
          (fun i => [5, 6].getD i 0 ^^^ (List.getD [1, 2, 3, 4] (i % 4) 0))) :=
  (non_minimal_length_accepted 130 0 2 1 2 3 4 [5, 6] (by decide) (by decide)
    (by decide) (by decide) (by decide)).1

theorem getD_map_range (f : Nat → Nat) {n i : Nat} (h : i < n) (d : Nat) :
    ((List.range n).map f).getD i d = f i := by
  have h' : i < ((List.range n).map f).length := by simp [h]
  rw [List.getD_eq_getElem _ _ h']
  simp

theorem map_getD_range_eq_self (l : List Nat) (d : Nat) :
    (List.range l.length).map (fun i => l.getD i d) = l := by
  apply List.ext_getElem
  · simp
  · intro i h1 h2
    simp [List.getElem?_eq_getElem h2]

/-- Unmasking a payload that was masked with the same 4-byte key recovers
the payload. -/
theorem read_masked_roundtrip (k0 k1 k2 k3 : Nat) (P : List Nat) :
    read_masked (k0 :: k1 :: k2 :: k3 :: mask_payload [k0, k1, k2, k3] P) P.length
      = ParseResult.ok P := by
  have hlen : (mask_payload [k0, k1, k2, k3] P).length = P.length := by
    simp [mask_payload]
  have hc : ¬ ((mask_payload [k0, k1, k2, k3] P).length < P.length) := by omega
  simp only [read_masked, if_neg hc]
  congr 1
  have step : ∀ i ∈ List.range P.length,
      (mask_payload [k0, k1, k2, k3] P).getD i 0 ^^^ (List.getD [k0, k1, k2, k3] (i % 4) 0)
        = P.getD i 0 := by
    intro i hi
    rw [List.mem_range] at hi
    rw [mask_payload, getD_map_range _ hi]
    exact Nat.xor_cancel_right _ _
  rw [List.map_congr_left step]
  exact map_getD_range_eq_self P 0

/-- Claim C1: for every payload of length at most 65535 and every 4-byte
masking key, building the masked client-style frame around the payload
and parsing it returns exactly the payload. -/
theorem frame_roundtrip (key P : List Nat) (hkey : key.length = 4)
    (hlen : P.length ≤ 65535) :
    parse_ws_frame (mask_client_frame key P) = ParseResult.ok P := by
  obtain ⟨k0, k1, k2, k3, rfl⟩ : ∃ a b c d, key = [a, b, c, d] := by
    match key, hkey with
    | [a, b, c, d], _ => exact ⟨a, b, c, d, rfl⟩
  by_cases h : P.length ≤ 125
  · have frameEq : mask_client_frame [k0, k1, k2, k3] P
        = 130 :: (128 + P.length)
          :: k0 :: k1 :: k2 :: k3 :: mask_payload [k0, k1, k2, k3] P := by
      simp [mask_client_frame, client_header, h]
    have e1 : (128 + P.length) / 128 = 1 := by omega
    have e2 : (128 + P.length) % 128 = P.length := by omega
    have e3 : ¬ (P.length = 127) := by omega
    have e4 : ¬ (P.length = 126) := by omega
    rw [frameEq]
    simp [parse_ws_frame, e1, e2, e3, e4]
    exact read_masked_roundtrip k0 k1 k2 k3 P
  · have frameEq : mask_client_frame [k0, k1, k2, k3] P
        = 130 :: 254 :: (P.length / 256) :: (P.length % 256)
          :: k0 :: k1 :: k2 :: k3 :: mask_payload [k0, k1, k2, k3] P := by
      simp [mask_client_frame, client_header, h]
    have e5 : P.length / 256 * 256 + P.length % 256 = P.length := by omega
    rw [frameEq]
    simp [parse_ws_frame, e5]
    exact read_masked_roundtrip k0 k1 k2 k3 P

/-- Witness for C1: the reference test vector, key `12 34 AB CD` around
payload `"Hello"`. -/
theorem frame_roundtrip_witness :
    parse_ws_frame (mask_client_frame [18, 52, 171, 205] [72, 101, 108, 108, 111])
      = ParseResult.ok [72, 101, 108, 108, 111] :=
  frame_roundtrip [18, 52, 171, 205] [72, 101, 108, 108, 111] (by decide) (by decide)

/-- A successful `read_masked` still succeeds, with the same result, after
appending extra bytes, and the result has exactly the requested length. -/
theorem read_masked_ok_append (t X : List Nat) (n : Nat) (P : List Nat)
    (h : read_masked t n = ParseResult.ok P) :
    read_masked (t ++ X) n = ParseResult.ok P ∧ P.length = n := by
  rcases t with _ | ⟨k0, _ | ⟨k1, _ | ⟨k2, _ | ⟨k3, payload⟩⟩⟩⟩
  · simp [read_masked] at h
  · simp [read_masked] at h
  · simp [read_masked] at h
  · simp [read_masked] at h
  · by_cases hc : payload.length < n
    · simp [read_masked, hc] at h
    · simp only [read_masked, if_neg hc] at h
      have hX : ¬ ((payload ++ X).length < n) := by
        rw [List.length_append]
        omega
      simp only [List.cons_append, read_masked, if_neg hX]
      injection h with h'
      constructor
      · congr 1
        rw [← h']
        apply List.map_congr_left
        intro i hi
        rw [List.mem_range] at hi
        rw [List.getD_append payload X 0 i (by omega)]
      · rw [← h']
        simp

/-- Claim C9: whenever `parse_ws_frame` succeeds on a buffer, it succeeds
with the same payload on that buffer extended by arbitrary trailing
bytes, and the payload's length is exactly the declared payload length
from the header. -/
theorem trailing_bytes_ignored (B X P : List Nat)
    (h : parse_ws_frame B = ParseResult.ok P) :
    parse_ws_frame (B ++ X) = ParseResult.ok P ∧ P.length = declared_payload_len B := by
  rcases B with _ | ⟨b0, _ | ⟨b1, rest⟩⟩
  · simp [parse_ws_frame] at h
  · simp [parse_ws_frame] at h
  · simp only [List.cons_append]
    simp only [parse_ws_frame] at h ⊢
    by_cases c1 : b0 / 128 ≠ 1
    · rw [if_pos c1] at h
      simp at h
    rw [if_neg c1] at h ⊢
    by_cases c2 : b0 % 16 ≠ 2
    · rw [if_pos c2] at h
      simp at h
    rw [if_neg c2] at h ⊢
    by_cases c3 : b1 / 128 ≠ 1
    · rw [if_pos c3] at h
      simp at h
    rw [if_neg c3] at h ⊢
    by_cases c4 : b1 % 128 = 127
    · rw [if_pos c4] at h
      simp at h
    rw [if_neg c4] at h ⊢
    by_cases c5 : b1 % 128 = 126
    · rw [if_pos c5] at h ⊢
      rcases rest with _ | ⟨e2, _ | ⟨e3, rest2⟩⟩
      · simp at h
      · simp at h
      · change read_masked rest2 (e2 * 256 + e3) = ParseResult.ok P at h
        obtain ⟨h1, h2⟩ := read_masked_ok_append rest2 X (e2 * 256 + e3) P h
        refine ⟨h1, ?_⟩
        rw [h2]
        simp [declared_payload_len, c5]
    · rw [if_neg c5] at h ⊢
      obtain ⟨h1, h2⟩ := read_masked_ok_append rest X (b1 % 128) P h
      refine ⟨h1, ?_⟩
      rw [h2]
      simp [declared_payload_len, c5]

/-- Witness for C9: the reference `"Hello"` frame with two junk bytes
appended still parses to `"Hello"`, whose length is the declared 5. -/
theorem trailing_bytes_ignored_witness :
    parse_ws_frame ([130, 133, 18, 52, 171, 205, 90, 81, 199, 161, 125] ++ [17, 34])
      = ParseResult.ok [72, 101, 108, 108, 111] ∧
    ([72, 101, 108, 108, 111] : List Nat).length
      = declared_payload_len [130, 133, 18, 52, 171, 205, 90, 81, 199, 161, 125] :=
  trailing_bytes_ignored [130, 133, 18, 52, 171, 205, 90, 81, 199, 161, 125] [17, 34]
    [72, 101, 108, 108, 111] (by decide)

set_option maxRecDepth 10000 in
/-- Claim C3: `accept_value` is the standard Base64 encoding (with padding)
of the SHA-1 digest of the key bytes concatenated with the ASCII magic
constant, and on the sample key `"dGhlIHNhbXBsZSBub25jZQ=="` it returns
exactly `"s3pPLMBiTxaQ9kYGzzhZRbK+xOo="`. -/
theorem accept_value_spec :
    (∀ key_value : List Nat,
      accept_value key_value
        = String.mk (base64_encode (sha1 (key_value ++ magic_bytes)))) ∧
    accept_value ("dGhlIHNhbXBsZSBub25jZQ==".data.map Char.toNat)
      = "s3pPLMBiTxaQ9kYGzzhZRbK+xOo=" :=
  ⟨fun _ => rfl, by decide⟩

/-- Claim C4: a request whose method is not GET, or with no header named
exactly `Sec-WebSocket-Key`, yields the literal 400 response with the
bad-request signal true; a GET request carrying that header yields the
101 response whose accept header applies `accept_value` to that header's
exact value, with the signal false. -/
theorem handshake_response_spec :
    (∀ (method : Option String) (headers : List HttpHeader),
      method ≠ some "GET" →
      handshake_response method headers = ("HTTP/1.1 400 Bad Request\r\n\r\n", true)) ∧
    (∀ (method : Option String) (headers : List HttpHeader),
      (∀ h ∈ headers, h.name ≠ "Sec-WebSocket-Key") →
      handshake_response method headers = ("HTTP/1.1 400 Bad Request\r\n\r\n", true)) ∧
    (∀ (headers : List HttpHeader) (hd : HttpHeader),
      headers.find? (fun h => h.name == "Sec-WebSocket-Key") = some hd →
      handshake_response (some "GET") headers
        = ("HTTP/1.1 101 Switching Protocols\r\nUpgrade: websocket\r\nConnection: Upgrade\r\nSec-WebSocket-Accept: "
            ++ accept_value hd.value ++ "\r\n\r\n", false)) := by
  refine ⟨?_, ?_, ?_⟩
  · intro m hs hm
    simp [handshake_response, hm]
  · intro m hs hnone
    have hfind : hs.find? (fun h => h.name == "Sec-WebSocket-Key") = none := by
      rw [List.find?_eq_none]
      intro x hx
      simpa using hnone x hx
    by_cases hm : m = some "GET"
    · simp [handshake_response, hm, hfind]
    · simp [handshake_response, hm]
  · intro hs hd hfind
    simp [handshake_response, hfind]

/-- Witness for C4: a POST request, a GET request without the key header,
and a GET request with the sample key. -/
theorem handshake_response_spec_witness :
    handshake_response (some "POST") [] = ("HTTP/1.1 400 Bad Request\r\n\r\n", true) ∧
    handshake_response (some "GET") [⟨"Host", [1]⟩]
      = ("HTTP/1.1 400 Bad Request\r\n\r\n", true) ∧
    handshake_response (some "GET")
        [⟨"Sec-WebSocket-Key", "dGhlIHNhbXBsZSBub25jZQ==".data.map Char.toNat⟩]
      = ("HTTP/1.1 101 Switching Protocols\r\nUpgrade: websocket\r\nConnection: Upgrade\r\nSec-WebSocket-Accept: "
          ++ accept_value ("dGhlIHNhbXBsZSBub25jZQ==".data.map Char.toNat)
          ++ "\r\n\r\n", false) :=
  ⟨handshake_response_spec.1 (some "POST") [] (by simp),
   handshake_response_spec.2.1 (some "GET") [⟨"Host", [1]⟩] (by simp),
   handshake_response_spec.2.2
     [⟨"Sec-WebSocket-Key", "dGhlIHNhbXBsZSBub25jZQ==".data.map Char.toNat⟩]
     ⟨"Sec-WebSocket-Key", "dGhlIHNhbXBsZSBub25jZQ==".data.map Char.toNat⟩ (by simp)⟩

end Wocket
